import Mathlib

/-!
Verification of the lawnmower-dashboard telemetry core.

This file shallowly embeds the telemetry-interpreter logic of the
repository (the state taxonomy and battery-trend predictor of the
backend API / chart components, the cockpit telemetry session with its
stuck detector, message log and ingestion handlers, and the
status-duration aggregator) and proves or refutes the frozen claims
about it.

Modelling conventions:
  * JavaScript numbers are modelled as exact rationals (`ℚ`).  Where a
    computation can produce the IEEE special values (division by zero
    in the trend predictor), the embedding uses `JsNum`, an extension
    of `ℚ` with `posInf`, `negInf` and `nan` that follows the IEEE /
    JavaScript rules exactly for the operations that occur in the
    source (these special-value rules are exact, not approximations).
  * `Date` values and `Date.now()` are milliseconds, modelled as `ℚ`.
  * JavaScript `Map`s are association lists with JS `Map` get/set
    /delete semantics; keys are unique in every reachable map.
  * Message strings are modelled by the inductive `MsgText`, one
    constructor per template string of the source, carrying the
    interpolated (already `Math.round`ed) numeric data.
  * The haversine `calculateDistance` is transcendental; the GPS
    handlers are parameterised by the distance function, and theorems
    constrain it only through the comparisons the source performs.
  * DOM / chart / map side effects are external collaborators and are
    not part of the session state.
-/

/-! ## JavaScript number model -/

/-- A JavaScript number: a finite (exact) rational or one of the IEEE
special values `Infinity`, `-Infinity`, `NaN`. -/
inductive JsNum where
  | num (q : ℚ)
  | posInf
  | negInf
  | nan
deriving DecidableEq, Repr

/-- JavaScript division of two finite numbers: finite quotient when the
divisor is nonzero, otherwise `±Infinity` by the dividend's sign and
`NaN` for `0 / 0` (the zero divisors arising in the source are positive
zeros, so the sign rules below are the IEEE ones for `+0`). -/
def jsDivQ (a b : ℚ) : JsNum :=
  if b ≠ 0 then .num (a / b)
  else if a > 0 then .posInf
  else if a < 0 then .negInf
  else .nan

/-- JavaScript addition on `JsNum`. -/
def jsAdd : JsNum → JsNum → JsNum
  | .num a, .num b => .num (a + b)
  | .nan, _ => .nan
  | _, .nan => .nan
  | .posInf, .negInf => .nan
  | .negInf, .posInf => .nan
  | .posInf, _ => .posInf
  | _, .posInf => .posInf
  | .negInf, _ => .negInf
  | _, .negInf => .negInf

/-- JavaScript multiplication on `JsNum`. -/
def jsMul : JsNum → JsNum → JsNum
  | .num a, .num b => .num (a * b)
  | .nan, _ => .nan
  | _, .nan => .nan
  | .posInf, .posInf => .posInf
  | .posInf, .negInf => .negInf
  | .negInf, .posInf => .negInf
  | .negInf, .negInf => .posInf
  | .posInf, .num b => if b > 0 then .posInf else if b < 0 then .negInf else .nan
  | .num a, .posInf => if a > 0 then .posInf else if a < 0 then .negInf else .nan
  | .negInf, .num b => if b > 0 then .negInf else if b < 0 then .posInf else .nan
  | .num a, .negInf => if a > 0 then .negInf else if a < 0 then .posInf else .nan

/-- JavaScript division on `JsNum` (finite / infinite gives `0`,
infinite / finite keeps the infinity with the divisor's sign,
infinite / infinite gives `NaN`). -/
def jsDiv : JsNum → JsNum → JsNum
  | .num a, .num b => jsDivQ a b
  | .nan, _ => .nan
  | _, .nan => .nan
  | .num _, .posInf => .num 0
  | .num _, .negInf => .num 0
  | .posInf, .num b => if b ≥ 0 then .posInf else .negInf
  | .negInf, .num b => if b ≥ 0 then .negInf else .posInf
  | _, _ => .nan

/-- JavaScript negation on `JsNum`. -/
def jsNeg : JsNum → JsNum
  | .num a => .num (-a)
  | .posInf => .negInf
  | .negInf => .posInf
  | .nan => .nan

/-- The JavaScript comparison `x > 0` (false on `NaN`). -/
def jsGtZ : JsNum → Bool
  | .num q => decide (q > 0)
  | .posInf => true
  | _ => false

/-- The JavaScript comparison `x < 0` (false on `NaN`). -/
def jsLtZ : JsNum → Bool
  | .num q => decide (q < 0)
  | .negInf => true
  | _ => false

/-- `Math.round` on a finite value: half-away-from-negative-infinity,
i.e. `⌊q + 1/2⌋`, matching JavaScript's round-half-toward-positive. -/
def jsRound (q : ℚ) : ℤ := ⌊q + 1 / 2⌋

/-- `Math.round` lifted to `JsNum` (`Infinity` and `NaN` pass through). -/
def jsRoundN : JsNum → JsNum
  | .num q => .num (jsRound q)
  | x => x

/-! ## State taxonomy (`LawnmowerAPI.getStateName` / `getStateClass`)

The source looks the integer state id up in an object literal and falls
back with `|| 'Unknown'` / `|| ''`.  No in-range value is falsy, so the
lookup-with-default is faithfully an if-chain. -/

/-- `LawnmowerAPI.getStateName`: display name of a state id, `"Unknown"`
for ids outside `0–5`. -/
def getStateName (stateId : ℤ) : String :=
  if stateId = 0 then "Station Charging"
  else if stateId = 1 then "Station Charging Completed"
  else if stateId = 2 then "Mowing"
  else if stateId = 3 then "Returning to Station"
  else if stateId = 4 then "Paused"
  else if stateId = 5 then "Error"
  else "Unknown"

/-- `LawnmowerAPI.getStateClass`: style class of a state id, `""` for
ids outside `0–5`.  Note that states `0` and `1` both map to
`"status-charging"`. -/
def getStateClass (stateId : ℤ) : String :=
  if stateId = 0 then "status-charging"
  else if stateId = 1 then "status-charging"
  else if stateId = 2 then "status-mowing"
  else if stateId = 3 then "status-returning"
  else if stateId = 4 then "status-paused"
  else if stateId = 5 then "status-error"
  else ""

/-! ## Battery trend predictor (`ChartManager.calculateBatteryPrediction`) -/

/-- One entry of `ChartManager.batteryData`: a battery sample with its
timestamp in milliseconds. -/
structure BatterySample where
  timestamp : ℚ
  level : ℚ
deriving DecidableEq, Repr

/-- The label string of a prediction, carrying the `Math.round`ed
minutes interpolated into it. -/
inductive PredLabel where
  | chargingComplete (minutes : JsNum)
  | batteryEmptyIn (minutes : JsNum)
deriving DecidableEq, Repr

/-- A prediction: the two overlay points `(x, y)` and the label
(`{ data: predictionPoints, label }` in the source). -/
structure Prediction where
  points : List (JsNum × JsNum)
  label : PredLabel
deriving DecidableEq, Repr

/-- JavaScript `array.slice(-n)`: the last `n` elements (the whole
array when it is shorter). -/
def sliceLast (n : ℕ) (l : List BatterySample) : List BatterySample :=
  l.drop (l.length - n)

/-- The body of `calculateBatteryPrediction` after the length guards:
the source reads `recentData[0]` and `recentData[recentData.length-1]`,
which the guard `recentData.length ≥ 2` makes safe; here they are
obtained via `head?`/`getLast?`.  `currentState` is
`lastStates.get(id)`, hence `Option` (`none` = `undefined`). -/
def predictFromWindow (recentData : List BatterySample)
    (currentState : Option ℤ) : Option Prediction :=
  match recentData.head?, recentData.getLast? with
  | some firstS, some lastS =>
    let timeSpan := lastS.timestamp - firstS.timestamp
    let levelChange := lastS.level - firstS.level
    let ratePerMs := jsDivQ levelChange timeSpan
    let currentLevel := lastS.level
    let currentTime := lastS.timestamp
    if currentState = some 0 then
      if jsGtZ ratePerMs then
        let timeToFull := jsDiv (.num (100 - currentLevel)) (jsMul ratePerMs (.num 60000))
        let fullTime := jsAdd (.num currentTime) (jsMul timeToFull (.num 60000))
        some ⟨[(.num currentTime, .num currentLevel), (fullTime, .num 100)],
              .chargingComplete (jsRoundN timeToFull)⟩
      else none
    else if currentState = some 2 ∨ currentState = some 3 ∨
            currentState = some 4 ∨ currentState = some 5 then
      if jsLtZ ratePerMs then
        let timeToEmpty := jsDiv (.num currentLevel) (jsMul (jsNeg ratePerMs) (.num 60000))
        let emptyTime := jsAdd (.num currentTime) (jsMul timeToEmpty (.num 60000))
        some ⟨[(.num currentTime, .num currentLevel), (emptyTime, .num 0)],
              .batteryEmptyIn (jsRoundN timeToEmpty)⟩
      else none
    else none
  | _, _ => none

/-- `ChartManager.calculateBatteryPrediction`: linear extrapolation over
the last (at most) 10 samples; `null` becomes `none`. -/
def calculateBatteryPrediction (batteryData : List BatterySample)
    (currentState : Option ℤ) : Option Prediction :=
  if batteryData.length < 2 then none
  else
    let recentData := sliceLast 10 batteryData
    if recentData.length < 2 then none
    else predictFromWindow recentData currentState

/-! ## Claims about the state taxonomy and the trend predictor -/

/-- C1 (counterexample): the claim asserts that no two of the six
states share a style class, but `getStateClass` maps both state `0`
(StationCharging) and state `1` (StationChargingCompleted) to
`"status-charging"`. -/
theorem getStateClass_shared_cex :
    getStateClass 0 = "status-charging" ∧ getStateClass 1 = "status-charging" ∧
    (0 : ℤ) ≠ 1 := by decide

/-- C1 (amended): for state ids 0–5 both lookups return non-empty
strings; display names are pairwise distinct; style classes are
pairwise distinct except that states 0 and 1 share `"status-charging"`;
for every id outside 0–5 the lookups return the fallbacks `"Unknown"`
and `""`. -/
theorem stateTaxonomy_amended (i j : ℤ) :
    (0 ≤ i ∧ i ≤ 5 → getStateName i ≠ "" ∧ getStateClass i ≠ "") ∧
    (0 ≤ i ∧ i ≤ 5 ∧ 0 ≤ j ∧ j ≤ 5 ∧ i ≠ j →
      getStateName i ≠ getStateName j ∧
      (getStateClass i = getStateClass j ↔ (i = 0 ∧ j = 1) ∨ (i = 1 ∧ j = 0))) ∧
    (i < 0 ∨ 5 < i → getStateName i = "Unknown" ∧ getStateClass i = "") := by
  refine ⟨?_, ?_, ?_⟩
  · rintro ⟨h0, h5⟩
    interval_cases i <;> decide
  · rintro ⟨h0, h5, j0, j5, hne⟩
    revert hne
    interval_cases i <;> interval_cases j <;> decide
  · intro h
    have h0 : i ≠ 0 := by omega
    have h1 : i ≠ 1 := by omega
    have h2 : i ≠ 2 := by omega
    have h3 : i ≠ 3 := by omega
    have h4 : i ≠ 4 := by omega
    have h5 : i ≠ 5 := by omega
    simp [getStateName, getStateClass, h0, h1, h2, h3, h4, h5]

/-- C1 (witness): the amended taxonomy theorem applied at states 2, 3
and at the out-of-range id 7. -/
theorem stateTaxonomy_amended_witness :
    (getStateName 2 ≠ "" ∧ getStateClass 2 ≠ "") ∧
    getStateName 2 ≠ getStateName 3 ∧
    (getStateName 7 = "Unknown" ∧ getStateClass 7 = "") :=
  ⟨(stateTaxonomy_amended 2 3).1 (by decide),
   ((stateTaxonomy_amended 2 3).2.1 (by decide)).1,
   (stateTaxonomy_amended 7 0).2.2 (by decide)⟩

/-- C2 (counterexample): on the two-sample window `[(0, 50%), (0, 60%)]`
with zero time span and current state StationCharging, the predictor
does not return `none`: the JavaScript division yields `Infinity`,
which passes the `ratePerMs > 0` check, and a degenerate zero-width
prediction is produced. -/
theorem calculateBatteryPrediction_zeroSpan_cex :
    calculateBatteryPrediction [⟨0, 50⟩, ⟨0, 60⟩] (some 0) =
      some ⟨[(.num 0, .num 60), (.num 0, .num 100)],
            .chargingComplete (.num 0)⟩ := by
  norm_num [calculateBatteryPrediction, sliceLast, predictFromWindow, jsDivQ,
    jsGtZ, jsMul, jsDiv, jsAdd, jsRoundN, jsRound]

/-- C2 (amended): for every window of at least 2 battery samples whose
first and last timestamps are equal, the predictor returns `none` when
additionally the first and last levels are equal (the `0/0 = NaN` rate
fails every sign test), for every current state; but when the level
change is positive and the state is StationCharging it instead returns
a degenerate zero-width prediction at the last sample's timestamp. -/
theorem calculateBatteryPrediction_zeroSpan_amended
    (l : List BatterySample) (st : Option ℤ) (f la : BatterySample)
    (hlen : 2 ≤ l.length)
    (hf : (sliceLast 10 l).head? = some f)
    (hla : (sliceLast 10 l).getLast? = some la)
    (hts : la.timestamp = f.timestamp) :
    (la.level = f.level → calculateBatteryPrediction l st = none) ∧
    (f.level < la.level → st = some 0 →
      calculateBatteryPrediction l st =
        some ⟨[(.num la.timestamp, .num la.level), (.num la.timestamp, .num 100)],
              .chargingComplete (.num 0)⟩) := by
  have h1 : ¬ l.length < 2 := by omega
  have h2 : ¬ (sliceLast 10 l).length < 2 := by
    unfold sliceLast
    rw [List.length_drop]
    omega
  have hspan : la.timestamp - f.timestamp = 0 := by rw [hts]; ring
  constructor
  · intro hlv
    have hchg : la.level - f.level = 0 := by rw [hlv]; ring
    unfold calculateBatteryPrediction predictFromWindow
    rw [if_neg h1, if_neg h2, hf, hla]
    simp only [hspan, hchg, jsDivQ, jsGtZ, jsLtZ]
    norm_num
  · intro hlv hst
    subst hst
    have hchg : 0 < la.level - f.level := by linarith
    unfold calculateBatteryPrediction predictFromWindow
    rw [if_neg h1, if_neg h2, hf, hla]
    simp only [hspan]
    have hrate : jsDivQ (la.level - f.level) 0 = .posInf := by
      unfold jsDivQ
      rw [if_neg (by norm_num), if_pos hchg]
    rw [hrate]
    simp only [if_pos rfl, jsGtZ, jsMul, jsDiv, jsAdd, jsRoundN, jsRound]
    norm_num

/-- C2 (witness): the amended theorem applied to the concrete windows
`[(0,50),(0,50)]` (equal levels, state Paused, no prediction) and
`[(0,50),(0,60)]` (rising levels, state StationCharging, degenerate
prediction). -/
theorem calculateBatteryPrediction_zeroSpan_amended_witness :
    calculateBatteryPrediction [⟨0, 50⟩, ⟨0, 50⟩] (some 4) = none ∧
    calculateBatteryPrediction [⟨0, 50⟩, ⟨0, 60⟩] (some 0) =
      some ⟨[(.num 0, .num 60), (.num 0, .num 100)],
            .chargingComplete (.num 0)⟩ :=
  ⟨(calculateBatteryPrediction_zeroSpan_amended [⟨0, 50⟩, ⟨0, 50⟩] (some 4)
      ⟨0, 50⟩ ⟨0, 50⟩ (by norm_num) (by simp [sliceLast]) (by simp [sliceLast]) rfl).1 rfl,
   (calculateBatteryPrediction_zeroSpan_amended [⟨0, 50⟩, ⟨0, 60⟩] (some 0)
      ⟨0, 50⟩ ⟨0, 60⟩ (by norm_num) (by simp [sliceLast]) (by simp [sliceLast]) rfl).2
     (by norm_num) rfl⟩

/-- C6: given the two samples `(t, 50%)` and `(t+10min, 60%)` and
current state StationCharging, the predictor returns the prediction
whose points are `(t+10min, 60)` and `(t+10min+40min, 100)`, labelled
with 40 rounded minutes to full charge. -/
theorem calculateBatteryPrediction_timeToFull (t : ℚ) :
    calculateBatteryPrediction [⟨t, 50⟩, ⟨t + 600000, 60⟩] (some 0) =
      some ⟨[(.num (t + 600000), .num 60), (.num (t + 600000 + 2400000), .num 100)],
            .chargingComplete (.num 40)⟩ := by
  have hspan : t + 600000 - t = 600000 := by ring
  unfold calculateBatteryPrediction sliceLast predictFromWindow
  norm_num [hspan, jsDivQ, jsGtZ, jsMul, jsDiv, jsAdd, jsRoundN, jsRound]

/-! ## Telemetry session (`CockpitManager`)

The session state comprises exactly the per-device mutable fields of
`CockpitManager` that the telemetry logic reads or writes:
`currentDevice`, `lastStates`, `stuckPositions`, `lastPosition`,
`messages` and the loaded `config`.  DOM elements, the chart/map
managers and `app.updateLastUpdateTime()` are external collaborators.
Message `id`s (`Date.now() + Math.random()`) are nondeterministic
presentation data and are not modelled. -/

/-- Message severity (the `type` argument of `addMessage`). -/
inductive Severity where
  | info
  | warning
  | error
deriving DecidableEq, Repr

/-- The message texts the telemetry logic produces, one constructor per
template string of the source, carrying the interpolated
(`Math.round`ed) numeric data. -/
inductive MsgText where
  | cockpitInit
  | initialLoadFailed
  | batteryEmpty
  | batteryLow (pct : ℤ)
  | stuckAlert (secs : ℤ)
  | stateChanged (prev next : ℤ)
  | resumed
  | errorState
deriving DecidableEq, Repr

/-- One entry of `CockpitManager.messages`. -/
structure Message where
  text : MsgText
  severity : Severity
  timestamp : ℚ
deriving DecidableEq, Repr

/-- One entry of `CockpitManager.stuckPositions`: the stuck-detection
anchor `{latitude, longitude, timestamp}`. -/
structure StuckData where
  latitude : ℚ
  longitude : ℚ
  timestamp : ℚ
deriving DecidableEq, Repr

/-- `CockpitManager.lastPosition`: `{latitude, longitude, timestamp}`. -/
structure Position where
  latitude : ℚ
  longitude : ℚ
  timestamp : ℚ
deriving DecidableEq, Repr

/-- The two configuration values the telemetry logic branches on
(`stuckThreshold` seconds, `batteryLowThreshold` percent). -/
structure Config where
  stuckThreshold : ℚ
  batteryLowThreshold : ℚ
deriving DecidableEq, Repr

/-- The constructor defaults: 90 s stuck threshold, 10 % battery-low
threshold. -/
def defaultConfig : Config := ⟨90, 10⟩

/-- JavaScript `Map.get`: the value bound to `k`, or `none`
(`undefined`). -/
def mapGet {α : Type} : List (ℤ × α) → ℤ → Option α
  | [], _ => none
  | (k', v) :: r, k => if k' = k then some v else mapGet r k

/-- JavaScript `Map.set`: replace the binding in place if the key is
present, else append it.  Keys are unique in every map reached from the
empty map by `mapSet`/`mapDelete`. -/
def mapSet {α : Type} : List (ℤ × α) → ℤ → α → List (ℤ × α)
  | [], k, v => [(k, v)]
  | (k', v') :: r, k, v => if k' = k then (k, v) :: r else (k', v') :: mapSet r k v

/-- JavaScript `Map.delete`: drop the binding of `k` (all of them; maps
reached from the empty map never bind a key twice, so this coincides
with deleting the single entry). -/
def mapDelete {α : Type} : List (ℤ × α) → ℤ → List (ℤ × α)
  | [], _ => []
  | (k', v) :: r, k => if k' = k then mapDelete r k else (k', v) :: mapDelete r k

/-- The per-device telemetry session: the telemetry-relevant mutable
fields of `CockpitManager`. -/
structure Session where
  currentDevice : Option ℤ
  lastStates : List (ℤ × ℤ)
  stuckPositions : List (ℤ × StuckData)
  lastPosition : Option Position
  messages : List Message
  config : Config
deriving DecidableEq, Repr

/-- The `CockpitManager` constructor: no device, empty maps and log,
default configuration. -/
def mkCockpit (c : Config) : Session :=
  ⟨none, [], [], none, [], c⟩

/-- `CockpitManager.setDevice` (state part): bind the device, clear the
message log and both per-device maps (`lastPosition` is not reset by
the source). -/
def setDevice (s : Session) (deviceId : ℤ) : Session :=
  { s with currentDevice := some deviceId, messages := [],
           lastStates := [], stuckPositions := [] }

/-- `CockpitManager.addMessage`: prepend (`unshift`) the new message,
then truncate (`slice(0, 1000)`) when the log exceeds 1000 entries. -/
def addMessage (msgs : List Message) (text : MsgText) (sev : Severity)
    (now : ℚ) : List Message :=
  let m : Message := ⟨text, sev, now⟩
  let msgs' := m :: msgs
  if msgs'.length > 1000 then msgs'.take 1000 else msgs'

/-- `CockpitManager.checkBatteryWarnings`: one error message at level
exactly 0, else one warning below the low threshold, else nothing. -/
def checkBatteryWarnings (c : Config) (msgs : List Message) (level : ℚ)
    (now : ℚ) : List Message :=
  if level = 0 then addMessage msgs .batteryEmpty .error now
  else if level < c.batteryLowThreshold then
    addMessage msgs (.batteryLow (jsRound level)) .warning now
  else msgs

/-- `CockpitManager.updateDeviceState` (state part): the DOM update is
external; the session effect is the error message appended whenever the
reported state id is 5. -/
def updateDeviceState (s : Session) (stateId : ℤ) (now : ℚ) : Session :=
  if stateId = 5 then
    { s with messages := addMessage s.messages .errorState .error now }
  else s

/-- `CockpitManager.generateStateChangeMessage`: the transition info
message, plus the resumed message on a Paused→Mowing transition. -/
def generateStateChangeMessage (s : Session) (previousState newState : ℤ)
    (now : ℚ) : Session :=
  let s1 := { s with
    messages := addMessage s.messages (.stateChanged previousState newState) .info now }
  if previousState = 4 ∧ newState = 2 then
    { s1 with messages := addMessage s1.messages .resumed .info now }
  else s1

/-- A battery push event (`ReceiveBatteryMeasurement` payload). -/
structure BatteryEvent where
  LawnmowerId : ℤ
  BatteryLevel : ℚ
deriving DecidableEq, Repr

/-- A GPS push event (`ReceiveGpsMeasurement` payload). -/
structure GpsEvent where
  LawnmowerId : ℤ
  Latitude : ℚ
  Longitude : ℚ
deriving DecidableEq, Repr

/-- A state push event (`ReceiveStateMeasurement` payload). -/
structure StateEvent where
  LawnmowerId : ℤ
  State : ℤ
deriving DecidableEq, Repr

/-- `CockpitManager.handleBatteryUpdate`: no-op unless a device is
bound and the event carries its id; then the battery display update
(external) and the battery warnings. -/
def handleBatteryUpdate (s : Session) (data : BatteryEvent) (now : ℚ) : Session :=
  match s.currentDevice with
  | none => s
  | some devId =>
    if data.LawnmowerId ≠ devId then s
    else { s with
      messages := checkBatteryWarnings s.config s.messages data.BatteryLevel now }

/-- `CockpitManager.checkStuckDetection`, parameterised by the
(haversine) distance function `dist lat1 lon1 lat2 lon2`.  Outside
the Mowing/ReturningToStation states the anchor is deleted; otherwise
the anchor is created, reset on movement beyond 1 m, or — when the
anchored duration exceeds the threshold — a stuck alert is appended and
the anchor reset to the current sample. -/
def checkStuckDetection (dist : ℚ → ℚ → ℚ → ℚ → ℚ) (s : Session)
    (latitude longitude : ℚ) (now : ℚ) : Session :=
  match s.currentDevice with
  | none => s
  | some deviceId =>
    let currentState := mapGet s.lastStates deviceId
    if currentState = some 2 ∨ currentState = some 3 then
      match mapGet s.stuckPositions deviceId with
      | none =>
        { s with stuckPositions := mapSet s.stuckPositions deviceId ⟨latitude, longitude, now⟩ }
      | some stuckData =>
        if dist stuckData.latitude stuckData.longitude latitude longitude > 1 then
          { s with stuckPositions := mapSet s.stuckPositions deviceId ⟨latitude, longitude, now⟩ }
        else
          let stuckTime := (now - stuckData.timestamp) / 1000
          if stuckTime > s.config.stuckThreshold then
            { s with
              messages := addMessage s.messages (.stuckAlert (jsRound stuckTime)) .error now,
              stuckPositions := mapSet s.stuckPositions deviceId ⟨latitude, longitude, now⟩ }
          else s
    else { s with stuckPositions := mapDelete s.stuckPositions deviceId }

/-- `CockpitManager.handleGpsUpdate`: no-op unless a device is bound
and the event carries its id; then `updateGpsPosition` (which records
`lastPosition`) followed by the stuck detection. -/
def handleGpsUpdate (dist : ℚ → ℚ → ℚ → ℚ → ℚ) (s : Session)
    (data : GpsEvent) (now : ℚ) : Session :=
  match s.currentDevice with
  | none => s
  | some devId =>
    if data.LawnmowerId ≠ devId then s
    else
      let s1 := { s with lastPosition := some ⟨data.Latitude, data.Longitude, now⟩ }
      checkStuckDetection dist s1 data.Latitude data.Longitude now

/-- `CockpitManager.handleStateUpdate`: no-op unless a device is bound
and the event carries its id; then the state display update (with the
error-state message), the transition message when a previously known
state differs, and finally the `lastStates` update. -/
def handleStateUpdate (s : Session) (data : StateEvent) (now : ℚ) : Session :=
  match s.currentDevice with
  | none => s
  | some devId =>
    if data.LawnmowerId ≠ devId then s
    else
      let previousState := mapGet s.lastStates devId
      let s1 := updateDeviceState s data.State now
      let s2 := match previousState with
        | some p => if p ≠ data.State then generateStateChangeMessage s1 p data.State now else s1
        | none => s1
      { s2 with lastStates := mapSet s2.lastStates devId data.State }

/-- The number of stuck-alert messages in a log. -/
def countStuck (msgs : List Message) : ℕ :=
  msgs.countP fun m => match m.text with
    | .stuckAlert _ => true
    | _ => false

/-- The number of entered-error-state messages in a log. -/
def countErrorState (msgs : List Message) : ℕ :=
  msgs.countP fun m => decide (m.text = .errorState)

/-! ### Helper lemmas shared by several claims -/

/-- `addMessage` is prepend-then-truncate-to-1000 in closed form. -/
theorem addMessage_eq_take (msgs : List Message) (t : MsgText) (sev : Severity)
    (now : ℚ) : addMessage msgs t sev now = (⟨t, sev, now⟩ :: msgs).take 1000 := by
  simp only [addMessage]
  split
  · rfl
  · next h => exact (List.take_of_length_le (by simp at h ⊢; omega)).symm

/-- `addMessage` does not truncate while the log has at most 999
entries. -/
theorem addMessage_eq_cons (msgs : List Message) (t : MsgText) (sev : Severity)
    (now : ℚ) (h : msgs.length ≤ 999) :
    addMessage msgs t sev now = ⟨t, sev, now⟩ :: msgs := by
  rw [addMessage_eq_take]
  exact List.take_of_length_le (by simp; omega)

/-- Deleting a key removes every binding of it. -/
theorem mapGet_mapDelete_self {α : Type} (m : List (ℤ × α)) (k : ℤ) :
    mapGet (mapDelete m k) k = none := by
  induction m with
  | nil => rfl
  | cons p r ih =>
    obtain ⟨k', v⟩ := p
    unfold mapDelete
    by_cases h : k' = k
    · rw [if_pos h]
      exact ih
    · rw [if_neg h]
      unfold mapGet
      rw [if_neg h]
      exact ih

/-- A trivial distance function used to instantiate witnesses. -/
def distZero : ℚ → ℚ → ℚ → ℚ → ℚ := fun _ _ _ _ => 0

/-! ## Claims about the telemetry session -/

/-- C8: after every insertion via `addMessage` the log holds at most
1000 entries and equals the newest-first prefix of length 1000; when
the log already holds 1000 entries, inserting another keeps the 1000
most recent and evicts the oldest (last) entry. -/
theorem messageLog_bounded (msgs : List Message) (t : MsgText) (sev : Severity)
    (now : ℚ) :
    (addMessage msgs t sev now).length ≤ 1000 ∧
    addMessage msgs t sev now = (⟨t, sev, now⟩ :: msgs).take 1000 ∧
    (msgs.length = 1000 →
      addMessage msgs t sev now = ⟨t, sev, now⟩ :: msgs.dropLast) := by
  refine ⟨?_, addMessage_eq_take msgs t sev now, ?_⟩
  · rw [addMessage_eq_take]
    simp [List.length_take]
  · intro h
    rw [addMessage_eq_take, List.dropLast_eq_take, h]
    rw [show (1000 : ℕ) = 999 + 1 by norm_num, List.take_succ_cons]

/-- C8 (witness): inserting into a full 1000-entry log keeps the new
message plus the 999 most recent old ones. -/
theorem messageLog_bounded_witness :
    addMessage (List.replicate 1000 ⟨.cockpitInit, .info, 0⟩) .errorState .error 1 =
      ⟨.errorState, .error, 1⟩ ::
        (List.replicate 1000 (⟨.cockpitInit, .info, 0⟩ : Message)).dropLast :=
  (messageLog_bounded (List.replicate 1000 ⟨.cockpitInit, .info, 0⟩)
    .errorState .error 1).2.2 (by rw [List.length_replicate])

/-- C7: a battery update processed by the session appends exactly one
error message when the level is exactly 0, otherwise exactly one
warning message when the level is below the low threshold, otherwise
nothing — never both an error and a warning for the same sample. -/
theorem batteryWarnings_exclusive (s : Session) (d : ℤ) (level now : ℚ)
    (h : s.currentDevice = some d) :
    (level = 0 →
      (handleBatteryUpdate s ⟨d, level⟩ now).messages =
        (⟨.batteryEmpty, .error, now⟩ :: s.messages).take 1000) ∧
    (level ≠ 0 → level < s.config.batteryLowThreshold →
      (handleBatteryUpdate s ⟨d, level⟩ now).messages =
        (⟨.batteryLow (jsRound level), .warning, now⟩ :: s.messages).take 1000) ∧
    (level ≠ 0 → ¬ level < s.config.batteryLowThreshold →
      (handleBatteryUpdate s ⟨d, level⟩ now).messages = s.messages) := by
  have hh : handleBatteryUpdate s ⟨d, level⟩ now =
      { s with messages := checkBatteryWarnings s.config s.messages level now } := by
    unfold handleBatteryUpdate
    rw [h]
    simp
  rw [hh]
  unfold checkBatteryWarnings
  refine ⟨?_, ?_, ?_⟩
  · intro h0
    rw [if_pos h0, addMessage_eq_take]
  · intro h0 hlow
    rw [if_neg h0, if_pos hlow, addMessage_eq_take]
  · intro h0 hlow
    rw [if_neg h0, if_neg hlow]

/-- C7 (witness): level 5 (below the default threshold 10) appends
exactly the one warning message; level 0 appends exactly the one error
message. -/
theorem batteryWarnings_exclusive_witness :
    (handleBatteryUpdate ⟨some 1, [], [], none, [], defaultConfig⟩ ⟨1, 5⟩ 3).messages =
      [⟨.batteryLow 5, .warning, 3⟩] ∧
    (handleBatteryUpdate ⟨some 1, [], [], none, [], defaultConfig⟩ ⟨1, 0⟩ 3).messages =
      [⟨.batteryEmpty, .error, 3⟩] := by
  constructor
  · have := (batteryWarnings_exclusive ⟨some 1, [], [], none, [], defaultConfig⟩
      1 5 3 rfl).2.1 (by norm_num) (by norm_num [defaultConfig])
    rw [this]
    norm_num [jsRound]
  · have := (batteryWarnings_exclusive ⟨some 1, [], [], none, [], defaultConfig⟩
      1 0 3 rfl).1 rfl
    rw [this]
    simp

/-- C9: each of the three ingestion handlers leaves the session
unchanged when no device is bound or the event's `LawnmowerId` differs
from the bound device id — every session field is identical and no
message is emitted. -/
theorem ingestion_noop (dist : ℚ → ℚ → ℚ → ℚ → ℚ) (s : Session) (i : ℤ)
    (level lat lon : ℚ) (st : ℤ) (now : ℚ)
    (h : ∀ d, s.currentDevice = some d → i ≠ d) :
    handleBatteryUpdate s ⟨i, level⟩ now = s ∧
    handleGpsUpdate dist s ⟨i, lat, lon⟩ now = s ∧
    handleStateUpdate s ⟨i, st⟩ now = s := by
  cases hc : s.currentDevice with
  | none =>
    refine ⟨?_, ?_, ?_⟩ <;>
      simp [handleBatteryUpdate, handleGpsUpdate, handleStateUpdate, hc]
  | some d =>
    have hne : i ≠ d := h d hc
    refine ⟨?_, ?_, ?_⟩ <;>
      simp [handleBatteryUpdate, handleGpsUpdate, handleStateUpdate, hc, hne]

/-- C9 (witness): a session bound to device 1 ignores events for
device 2 entirely. -/
theorem ingestion_noop_witness :
    handleBatteryUpdate ⟨some 1, [], [], none, [], defaultConfig⟩ ⟨2, 50⟩ 0 =
      ⟨some 1, [], [], none, [], defaultConfig⟩ ∧
    handleGpsUpdate distZero ⟨some 1, [], [], none, [], defaultConfig⟩ ⟨2, 4, 5⟩ 0 =
      ⟨some 1, [], [], none, [], defaultConfig⟩ ∧
    handleStateUpdate ⟨some 1, [], [], none, [], defaultConfig⟩ ⟨2, 3⟩ 0 =
      ⟨some 1, [], [], none, [], defaultConfig⟩ :=
  ingestion_noop distZero ⟨some 1, [], [], none, [], defaultConfig⟩ 2 50 4 5 3 0
    (by intro d hd; injection hd with h1; omega)

/-- C10: every processed state update reporting state 5 (Error)
appends one `Device entered error state` error message — also when the
previously known state was already 5 and also on the first state
observation (the log is assumed to hold at most 998 entries so that
the appended messages are not truncated away). -/
theorem errorState_message_repeats (s : Session) (d : ℤ) (now : ℚ)
    (h : s.currentDevice = some d) (hlen : s.messages.length ≤ 998) :
    countErrorState (handleStateUpdate s ⟨d, 5⟩ now).messages =
      countErrorState s.messages + 1 := by
  have h1 : updateDeviceState s 5 now =
      { s with messages := addMessage s.messages .errorState .error now } := by
    unfold updateDeviceState
    rw [if_pos rfl]
  have hadd1 : addMessage s.messages .errorState .error now =
      ⟨.errorState, .error, now⟩ :: s.messages :=
    addMessage_eq_cons s.messages .errorState .error now (by omega)
  unfold handleStateUpdate
  rw [h]
  simp only [ne_eq, not_true_eq_false, if_false, ite_false]
  cases hp : mapGet s.lastStates d with
  | none =>
    simp [h1, hadd1, countErrorState]
  | some p =>
    by_cases hp5 : p ≠ 5
    · simp only [if_pos hp5]
      unfold generateStateChangeMessage
      rw [if_neg (by omega)]
      simp only [h1, hadd1]
      rw [addMessage_eq_cons _ _ _ _ (by simp; omega)]
      simp [countErrorState]
    · simp only [if_neg hp5]
      simp [h1, hadd1, countErrorState]

/-- C10 (witness): a repeated Error report (previous state already 5)
still appends a fresh error message. -/
theorem errorState_message_repeats_witness :
    countErrorState
      (handleStateUpdate ⟨some 1, [(1, 5)], [], none, [], defaultConfig⟩ ⟨1, 5⟩ 7).messages =
      countErrorState ([] : List Message) + 1 :=
  errorState_message_repeats ⟨some 1, [(1, 5)], [], none, [], defaultConfig⟩ 1 7 rfl
    (by simp)

/-- A reachable session run for the stuck-anchor invariant: bind
device 1, report state Mowing, process one GPS fix (creating the
anchor), then report state StationCharging. -/
def anchorRun : Session :=
  handleStateUpdate
    (handleGpsUpdate distZero
      (handleStateUpdate (setDevice (mkCockpit defaultConfig) 1) ⟨1, 2⟩ 0)
      ⟨1, 10, 20⟩ 1000)
    ⟨1, 0⟩ 2000

/-- C3 (counterexample): immediately after the state update to
StationCharging (state 0, outside the stuck-eligible set), the
stuck anchor created while Mowing still exists for the bound device —
the state handler never touches `stuckPositions`. -/
theorem stuckAnchor_persists_cex :
    mapGet anchorRun.stuckPositions 1 = some ⟨10, 20, 1000⟩ ∧
    mapGet anchorRun.lastStates 1 = some 0 := by
  constructor <;>
    norm_num [anchorRun, handleStateUpdate, handleGpsUpdate, checkStuckDetection,
      updateDeviceState, generateStateChangeMessage, setDevice, mkCockpit,
      mapGet, mapSet, mapDelete, defaultConfig, addMessage, distZero]

/-- C3 (amended): a state update never modifies the stuck anchors; the
anchor for the bound device is instead removed on the next GPS update
processed while the last known state is outside
{Mowing, ReturningToStation}, so between such a state change and the
next GPS sample a stale anchor may persist. -/
theorem stuckAnchor_amended (dist : ℚ → ℚ → ℚ → ℚ → ℚ) (s : Session)
    (data : StateEvent) (g : GpsEvent) (now : ℚ) :
    (handleStateUpdate s data now).stuckPositions = s.stuckPositions ∧
    (∀ d, s.currentDevice = some d → g.LawnmowerId = d →
      ¬(mapGet s.lastStates d = some 2 ∨ mapGet s.lastStates d = some 3) →
      mapGet (handleGpsUpdate dist s g now).stuckPositions d = none) := by
  constructor
  · unfold handleStateUpdate
    cases hc : s.currentDevice with
    | none => rfl
    | some d =>
      by_cases hg : data.LawnmowerId ≠ d
      · simp [hg]
      · simp only [if_neg hg]
        cases hp : mapGet s.lastStates d with
        | none =>
          simp [updateDeviceState]
          split <;> rfl
        | some p =>
          by_cases hp5 : p ≠ data.State
          · simp only [if_pos hp5]
            unfold generateStateChangeMessage updateDeviceState
            split <;> split <;> rfl
          · simp only [if_neg hp5]
            unfold updateDeviceState
            split <;> rfl
  · intro d hdev hid hstate
    unfold handleGpsUpdate
    rw [hdev]
    simp only [hid, ne_eq, not_true_eq_false, if_false, ite_false]
    unfold checkStuckDetection
    simp only [hdev]
    rw [if_neg hstate]
    exact mapGet_mapDelete_self s.stuckPositions d

/-- C3 (witness): the amended theorem at a session bound to device 1
whose last known state is Paused (4) and which still holds a stale
anchor. -/
theorem stuckAnchor_amended_witness :
    (handleStateUpdate ⟨some 1, [(1, 4)], [(1, ⟨0, 0, 0⟩)], none, [], defaultConfig⟩
        ⟨1, 4⟩ 0).stuckPositions = [(1, ⟨0, 0, 0⟩)] ∧
    mapGet (handleGpsUpdate distZero
        ⟨some 1, [(1, 4)], [(1, ⟨0, 0, 0⟩)], none, [], defaultConfig⟩
        ⟨1, 5, 5⟩ 0).stuckPositions 1 = none :=
  ⟨(stuckAnchor_amended distZero
      ⟨some 1, [(1, 4)], [(1, ⟨0, 0, 0⟩)], none, [], defaultConfig⟩ ⟨1, 4⟩ ⟨1, 5, 5⟩ 0).1,
   (stuckAnchor_amended distZero
      ⟨some 1, [(1, 4)], [(1, ⟨0, 0, 0⟩)], none, [], defaultConfig⟩ ⟨1, 4⟩ ⟨1, 5, 5⟩ 0).2
     1 rfl rfl (by decide)⟩

/-! ## C4: the stuck detector fires exactly once on a motionless span -/

/-- One GPS step while Mowing with no anchor yet: the anchor is
created from the sample and no message is emitted. -/
theorem gpsStep_fresh (dist : ℚ → ℚ → ℚ → ℚ → ℚ) (d : ℤ) (lat lon now : ℚ)
    (pos : Option Position) (msgs : List Message) :
    handleGpsUpdate dist ⟨some d, [(d, 2)], [], pos, msgs, defaultConfig⟩
        ⟨d, lat, lon⟩ now =
      ⟨some d, [(d, 2)], [(d, ⟨lat, lon, now⟩)], some ⟨lat, lon, now⟩, msgs,
       defaultConfig⟩ := by
  simp [handleGpsUpdate, checkStuckDetection, mapGet, mapSet]

/-- One GPS step while Mowing with an anchor and no movement beyond
1 m: an alert is emitted and the anchor reset exactly when the anchored
duration exceeds the 90 s default threshold. -/
theorem gpsStep_anchored (dist : ℚ → ℚ → ℚ → ℚ → ℚ) (d : ℤ)
    (la lo ts lat lon now : ℚ) (pos : Option Position) (msgs : List Message)
    (hdist : ¬ dist la lo lat lon > 1) :
    handleGpsUpdate dist
        ⟨some d, [(d, 2)], [(d, ⟨la, lo, ts⟩)], pos, msgs, defaultConfig⟩
        ⟨d, lat, lon⟩ now =
      if (now - ts) / 1000 > 90 then
        ⟨some d, [(d, 2)], [(d, ⟨lat, lon, now⟩)], some ⟨lat, lon, now⟩,
         addMessage msgs (.stuckAlert (jsRound ((now - ts) / 1000))) .error now,
         defaultConfig⟩
      else
        ⟨some d, [(d, 2)], [(d, ⟨la, lo, ts⟩)], some ⟨lat, lon, now⟩, msgs,
         defaultConfig⟩ := by
  simp only [handleGpsUpdate, checkStuckDetection, mapGet, mapSet, defaultConfig]
  simp [hdist]

/-- C4: starting from a session bound to device `d` whose last known
state is Mowing (2) with no anchor and an empty log, processing 5 GPS
samples that pairwise stay within 0.5 m (so no anchor/sample distance
exceeds the 1 m movement epsilon), with non-decreasing wall times
spanning exactly 91 s (> the default 90 s threshold), appends exactly
one stuck-alert message over the whole sequence. -/
theorem stuckDetector_single_alert (dist : ℚ → ℚ → ℚ → ℚ → ℚ) (d : ℤ)
    (la1 lo1 la2 lo2 la3 lo3 la4 lo4 la5 lo5 : ℚ) (n1 n2 n3 n4 n5 : ℚ)
    (h12 : n1 ≤ n2) (h23 : n2 ≤ n3) (h34 : n3 ≤ n4) (h45 : n4 ≤ n5)
    (hspan : n5 - n1 = 91000)
    (hd12 : dist la1 lo1 la2 lo2 ≤ 1/2) (hd13 : dist la1 lo1 la3 lo3 ≤ 1/2)
    (hd14 : dist la1 lo1 la4 lo4 ≤ 1/2) (hd15 : dist la1 lo1 la5 lo5 ≤ 1/2)
    (hd23 : dist la2 lo2 la3 lo3 ≤ 1/2) (hd24 : dist la2 lo2 la4 lo4 ≤ 1/2)
    (hd25 : dist la2 lo2 la5 lo5 ≤ 1/2) (hd34 : dist la3 lo3 la4 lo4 ≤ 1/2)
    (hd35 : dist la3 lo3 la5 lo5 ≤ 1/2) (hd45 : dist la4 lo4 la5 lo5 ≤ 1/2) :
    countStuck
      (handleGpsUpdate dist
        (handleGpsUpdate dist
          (handleGpsUpdate dist
            (handleGpsUpdate dist
              (handleGpsUpdate dist
                ⟨some d, [(d, 2)], [], none, [], defaultConfig⟩
                ⟨d, la1, lo1⟩ n1)
              ⟨d, la2, lo2⟩ n2)
            ⟨d, la3, lo3⟩ n3)
          ⟨d, la4, lo4⟩ n4)
        ⟨d, la5, lo5⟩ n5).messages = 1 := by
  rw [gpsStep_fresh]
  rw [gpsStep_anchored dist d la1 lo1 n1 la2 lo2 n2 _ _ (by linarith)]
  by_cases c2 : (n2 - n1) / 1000 > 90
  · rw [if_pos c2]
    rw [gpsStep_anchored dist d la2 lo2 n2 la3 lo3 n3 _ _ (by linarith)]
    rw [if_neg (show ¬ (n3 - n2) / 1000 > 90 by push_neg; nlinarith)]
    rw [gpsStep_anchored dist d la2 lo2 n2 la4 lo4 n4 _ _ (by linarith)]
    rw [if_neg (show ¬ (n4 - n2) / 1000 > 90 by push_neg; nlinarith)]
    rw [gpsStep_anchored dist d la2 lo2 n2 la5 lo5 n5 _ _ (by linarith)]
    rw [if_neg (show ¬ (n5 - n2) / 1000 > 90 by push_neg; nlinarith)]
    simp [countStuck, addMessage]
  · rw [if_neg c2]
    rw [gpsStep_anchored dist d la1 lo1 n1 la3 lo3 n3 _ _ (by linarith)]
    by_cases c3 : (n3 - n1) / 1000 > 90
    · rw [if_pos c3]
      rw [gpsStep_anchored dist d la3 lo3 n3 la4 lo4 n4 _ _ (by linarith)]
      rw [if_neg (show ¬ (n4 - n3) / 1000 > 90 by push_neg; nlinarith)]
      rw [gpsStep_anchored dist d la3 lo3 n3 la5 lo5 n5 _ _ (by linarith)]
      rw [if_neg (show ¬ (n5 - n3) / 1000 > 90 by push_neg; nlinarith)]
      simp [countStuck, addMessage]
    · rw [if_neg c3]
      rw [gpsStep_anchored dist d la1 lo1 n1 la4 lo4 n4 _ _ (by linarith)]
      by_cases c4 : (n4 - n1) / 1000 > 90
      · rw [if_pos c4]
        rw [gpsStep_anchored dist d la4 lo4 n4 la5 lo5 n5 _ _ (by linarith)]
        rw [if_neg (show ¬ (n5 - n4) / 1000 > 90 by push_neg; nlinarith)]
        simp [countStuck, addMessage]
      · rw [if_neg c4]
        rw [gpsStep_anchored dist d la1 lo1 n1 la5 lo5 n5 _ _ (by linarith)]
        rw [if_pos (show (n5 - n1) / 1000 > 90 by rw [hspan]; norm_num)]
        simp [countStuck, addMessage]

/-- C4 (witness): five coincident samples at times 0, 0, 0, 0, 91000 ms
produce exactly one stuck alert. -/
theorem stuckDetector_single_alert_witness :
    countStuck
      (handleGpsUpdate distZero
        (handleGpsUpdate distZero
          (handleGpsUpdate distZero
            (handleGpsUpdate distZero
              (handleGpsUpdate distZero
                ⟨some 7, [(7, 2)], [], none, [], defaultConfig⟩
                ⟨7, 0, 0⟩ 0)
              ⟨7, 0, 0⟩ 0)
            ⟨7, 0, 0⟩ 0)
          ⟨7, 0, 0⟩ 0)
        ⟨7, 0, 0⟩ 91000).messages = 1 :=
  stuckDetector_single_alert distZero 7 0 0 0 0 0 0 0 0 0 0 0 0 0 0 91000
    (by norm_num) (by norm_num) (by norm_num) (by norm_num) (by norm_num)
    (by norm_num [distZero]) (by norm_num [distZero]) (by norm_num [distZero])
    (by norm_num [distZero]) (by norm_num [distZero]) (by norm_num [distZero])
    (by norm_num [distZero]) (by norm_num [distZero]) (by norm_num [distZero])
    (by norm_num [distZero])

/-! ## Status-duration aggregator (`StatusManager`) -/

/-- One state-history record `{timestamp, state}`. -/
structure StateSample where
  timestamp : ℚ
  state : ℤ
deriving DecidableEq, Repr

/-- One entry of `StatusManager.timeline`. -/
structure TimelineItem where
  stateId : ℤ
  startTime : ℚ
  endTime : ℚ
  duration : ℚ
deriving DecidableEq, Repr

/-- One entry of `StatusManager.statusData` (the presentation-only
`stateName` and `color` lookups are omitted). -/
structure StatusDatum where
  stateId : ℤ
  duration : ℚ
  percentage : ℚ
deriving DecidableEq, Repr

/-- Stable insertion into a timestamp-sorted list (equal keys keep
their existing order, matching the ES2019 stable `Array.sort` with the
comparator `(a, b) => new Date(a.timestamp) - new Date(b.timestamp)`). -/
def insertSorted (x : StateSample) : List StateSample → List StateSample
  | [] => [x]
  | y :: r => if y.timestamp ≤ x.timestamp then y :: insertSorted x r else x :: y :: r

/-- Stable sort of the history by timestamp. -/
def sortByTimestamp (l : List StateSample) : List StateSample :=
  l.foldl (fun acc x => insertSorted x acc) []

/-- The raw timeline of `processStatusData`: each sample's segment ends
at the next sample's timestamp, the last at `windowEnd`; durations are
in seconds. -/
def timelineOf : List StateSample → ℚ → List TimelineItem
  | [], _ => []
  | [a], windowEnd =>
      [⟨a.state, a.timestamp, windowEnd, (windowEnd - a.timestamp) / 1000⟩]
  | a :: b :: r, windowEnd =>
      ⟨a.state, a.timestamp, b.timestamp, (b.timestamp - a.timestamp) / 1000⟩ ::
        timelineOf (b :: r) windowEnd

/-- The accumulated duration of one state (`stateDurations[stateId]`). -/
def stateDuration (tl : List TimelineItem) (st : ℤ) : ℚ :=
  ((tl.filter fun i => decide (i.stateId = st)).map TimelineItem.duration).sum

/-- Ascending duplicate-free insertion, mirroring the ascending
iteration order of `Object.entries` over integer-like keys. -/
def insertAscDedup (x : ℤ) : List ℤ → List ℤ
  | [] => [x]
  | y :: r =>
      if x < y then x :: y :: r
      else if x = y then y :: r
      else y :: insertAscDedup x r

/-- The distinct states of the timeline in ascending order (the key
set of `stateDurations` in `Object.entries` order). -/
def statesPresent (tl : List TimelineItem) : List ℤ :=
  tl.foldl (fun acc i => insertAscDedup i.stateId acc) []

/-- `StatusManager.processStatusData`: sort the history, build the raw
timeline and the per-state distribution with percentages normalised
over the total summed duration. -/
def processStatusData (history : List StateSample) (windowEnd : ℚ) :
    List StatusDatum × List TimelineItem :=
  let sorted := sortByTimestamp history
  let timeline := timelineOf sorted windowEnd
  let total := ((statesPresent timeline).map (stateDuration timeline)).sum
  (((statesPresent timeline).map fun st =>
      ⟨st, stateDuration timeline st, stateDuration timeline st / total * 100⟩),
   timeline)

/-- The loop body of `StatusManager.groupConsecutiveStates`: extend the
current group when the next item has the same state and starts within
60 s (60000 ms) of the group's end, else close the group. -/
def groupLoop (currentGroup : TimelineItem) : List TimelineItem → List TimelineItem
  | [] => [currentGroup]
  | current :: rest =>
      if current.stateId = currentGroup.stateId ∧
         |current.startTime - currentGroup.endTime| < 60000 then
        groupLoop ⟨currentGroup.stateId, currentGroup.startTime, current.endTime,
                   currentGroup.duration + current.duration⟩ rest
      else currentGroup :: groupLoop current rest

/-- `StatusManager.groupConsecutiveStates`. -/
def groupConsecutiveStates : List TimelineItem → List TimelineItem
  | [] => []
  | firstItem :: rest => groupLoop firstItem rest

/-- C5: on the history `[(t0, Mowing), (t0+30s, Mowing),
(t0+45s, Charging)]` with `windowEnd = t0+60s`, the merged timeline is
exactly one 45 s Mowing segment followed by one 15 s Charging segment,
and the distribution gives Mowing 75 % and Charging 25 %. -/
theorem statusAggregator_sample (t0 : ℚ) :
    (processStatusData [⟨t0, 2⟩, ⟨t0 + 30000, 2⟩, ⟨t0 + 45000, 0⟩] (t0 + 60000)).1 =
      [⟨0, 15, 25⟩, ⟨2, 45, 75⟩] ∧
    groupConsecutiveStates
        (processStatusData [⟨t0, 2⟩, ⟨t0 + 30000, 2⟩, ⟨t0 + 45000, 0⟩] (t0 + 60000)).2 =
      [⟨2, t0, t0 + 45000, 45⟩, ⟨0, t0 + 45000, t0 + 60000, 15⟩] := by
  have e1 : t0 ≤ t0 + 30000 := by linarith
  have e2 : t0 ≤ t0 + 45000 := by linarith
  have e3 : t0 + 30000 ≤ t0 + 45000 := by linarith
  have d1 : (t0 + 30000 - t0) / 1000 = 30 := by ring
  have d2 : (t0 + 45000 - (t0 + 30000)) / 1000 = 15 := by ring
  have d3 : (t0 + 60000 - (t0 + 45000)) / 1000 = 15 := by ring
  have hsort : sortByTimestamp [⟨t0, 2⟩, ⟨t0 + 30000, 2⟩, ⟨t0 + 45000, 0⟩] =
      [⟨t0, 2⟩, ⟨t0 + 30000, 2⟩, ⟨t0 + 45000, 0⟩] := by
    simp [sortByTimestamp, insertSorted, e1, e2, e3]
  have htl : (processStatusData [⟨t0, 2⟩, ⟨t0 + 30000, 2⟩, ⟨t0 + 45000, 0⟩]
      (t0 + 60000)).2 =
      [⟨2, t0, t0 + 30000, 30⟩, ⟨2, t0 + 30000, t0 + 45000, 15⟩,
       ⟨0, t0 + 45000, t0 + 60000, 15⟩] := by
    simp [processStatusData, hsort, timelineOf, d1, d2, d3]
    norm_num
  constructor
  · simp [processStatusData, hsort, timelineOf, d1, d2, d3, statesPresent,
      insertAscDedup, stateDuration]
    norm_num
  · rw [htl]
    simp [groupConsecutiveStates, groupLoop]
    norm_num
